import Mathlib

/-!
A shallow embedding of the tower-keycloak middleware (src/token.rs,
src/auth.rs, src/client.rs, src/service.rs, src/error.rs) and proofs of
the specification claims about it.

Modelling conventions:
- `Instant` and `Duration` are `Nat` counts of nanoseconds; `Instant.now()`
  becomes an explicit `now : Nat` argument threaded through the functions
  that call it in Rust.
- A Rust panic (`expect`, `unreachable!`) is modelled as `Option.none`.
- The boxed futures stored in `State.Fetching` / `State.Refetching` are
  opaque: a future is an identifier (`Nat`), and what polling it returns is
  supplied by an oracle `Nat → FutPoll`. Each call of `poll_ready` creates
  at most one fresh future, so the fresh identifier is one argument
  `freshFut`. The `ready!` macro (early return on `Pending`) and the
  `loop` in `KeycloakAuthInner::poll_ready` are unrolled: one call polls
  the stored (or just created) future at most once, exactly as the Rust
  control flow does.
- The `parking_lot::RwLock` around `KeycloakAuthInner` serialises every
  state transition (write lock) against every read; a sequence of
  concurrent readiness probes through clones of the handle is therefore
  modelled as a sequence of atomic `KeycloakAuth.poll_ready` steps on the
  one shared `State`.
-/

namespace TowerKeycloak

/-- Nanoseconds per second, the resolution of `std::time::Duration`. -/
def nanosPerSec : Nat := 1000000000

/-- Model of `Duration::from_secs`. -/
def Duration.fromSecs (n : Nat) : Nat := n * nanosPerSec

/-- Model of `Instant::checked_duration_since` (src/token.rs line 26):
`some (a - now)` when the instant `a` is not earlier than `now`, `none`
when the duration cannot be formed because `now` is already past `a`. -/
def Instant.checkedDurationSince (a now : Nat) : Option Nat :=
  if now ≤ a then some (a - now) else none

/-- Modelled from the http crate consumed by src/token.rs:
`HeaderValue::from_str` accepts a byte iff `b >= 32 && b != 127 || b == 9`.
Stated per character: a character of code point at least 128 is encoded in
UTF-8 only with bytes that are at least 128 (hence accepted), and an ASCII
character is its own byte. -/
def isValidHeaderChar (c : Char) : Bool :=
  128 ≤ c.toNat || (32 ≤ c.toNat && c.toNat != 127) || c.toNat == 9

/-- A string is a valid header value iff every character is. -/
def isValidHeaderValue (s : String) : Bool :=
  s.data.all isValidHeaderChar

/-- Model of `Token` (src/token.rs lines 5-9): the precomputed header value
and the absolute expiry instant. -/
structure Token where
  header_value : String
  expiration : Nat
deriving Repr, DecidableEq

/-- `Token::EXPIRY_DELTA = Duration::from_secs(10)` (src/token.rs line 12). -/
def Token.EXPIRY_DELTA : Nat := Duration.fromSecs 10

/-- Model of `Token::new` (src/token.rs lines 15-21). The Rust code builds
`format!("{token_type} {access_token}")`, calls
`HeaderValue::from_str(..).expect("Invalid access token")` — a panic when
the formatted string is not a valid header value, modelled as `none` —
and sets `expiration = Instant::now() + Duration::from_secs(expires_in)`. -/
def Token.new (token_type access_token : String) (expires_in : Nat) (now : Nat) :
    Option Token :=
  if isValidHeaderValue (token_type ++ " " ++ access_token) then
    some { header_value := token_type ++ " " ++ access_token,
           expiration := now + Duration.fromSecs expires_in }
  else
    none

/-- Model of `Token::is_expired` (src/token.rs lines 24-29):
`expiration.checked_duration_since(now).map(|dur| dur < EXPIRY_DELTA).unwrap_or(true)`. -/
def Token.is_expired (t : Token) (now : Nat) : Bool :=
  ((Instant.checkedDurationSince t.expiration now).map
    (fun dur => decide (dur < Token.EXPIRY_DELTA))).getD true

/-- Model of `Error` (src/error.rs lines 1-14). The payloads of the wrapped
library errors (`url::ParseError`, `reqwest::Error`,
`reqwest_middleware::Error`) are opaque here, kept as strings. -/
inductive Error where
  | ParseUrl (msg : String)
  | FetchToken (status_code : Nat) (response_text : String)
  | HttpRequest (msg : String)
  | HttpRequestWithMiddleware (msg : String)
deriving Repr, DecidableEq

/-- Model of `State` (src/auth.rs lines 139-151). A stored future is its
opaque identifier. -/
inductive State where
  | NotFetched
  | Fetching (fut : Nat)
  | Refetching (fut : Nat) (token : Token)
  | Fetched (token : Token)
deriving Repr, DecidableEq

/-- What one poll of a stored fetch future returns:
`Poll<Result<Token, Error>>`. -/
inductive FutPoll where
  | pending
  | ok (token : Token)
  | err (e : Error)
deriving Repr, DecidableEq

/-- The result of `poll_ready`: `Poll<Result<(), Error>>`. -/
inductive PollResult where
  | pending
  | ready
  | failed (e : Error)
deriving Repr, DecidableEq

/-- Model of `KeycloakAuthInner::can_skip_poll_ready` (src/auth.rs lines
69-72): `matches!(state, Fetched { token } if !token.is_expired())`. -/
def KeycloakAuthInner.can_skip_poll_ready (now : Nat) : State → Bool
  | State.Fetched t => !t.is_expired now
  | _ => false

/-- Model of `KeycloakAuthInner::header_value` (src/auth.rs lines 74-81):
the token of `Fetched`, the previous token of `Refetching`, and
`unreachable!` (a panic, modelled as `none`) on `NotFetched` and
`Fetching`. -/
def KeycloakAuthInner.header_value : State → Option String
  | State.Fetched t => some t.header_value
  | State.Refetching _ t => some t.header_value
  | _ => none

/-- Model of `KeycloakAuthInner::poll_ready` (src/auth.rs lines 84-136).
`oracle fut` is what polling the future `fut` returns this call; `freshFut`
is the identifier of the future a `new_token()` call would create. The
`loop` is unrolled: from `NotFetched` the code installs
`Fetching { fut }` and then polls it; from an expired `Fetched` it installs
`Refetching { fut, token }` and then polls it. On `Err` the code returns
the error with `self.state` left exactly as it is — still holding the
already-completed future (src/auth.rs lines 104-106 and 114-116 assign no
new state). -/
def KeycloakAuthInner.poll_ready (oracle : Nat → FutPoll) (freshFut now : Nat) :
    State → PollResult × State
  | State.NotFetched =>
      match oracle freshFut with
      | FutPoll.pending => (PollResult.pending, State.Fetching freshFut)
      | FutPoll.ok t => (PollResult.ready, State.Fetched t)
      | FutPoll.err e => (PollResult.failed e, State.Fetching freshFut)
  | State.Fetching fut =>
      match oracle fut with
      | FutPoll.pending => (PollResult.pending, State.Fetching fut)
      | FutPoll.ok t => (PollResult.ready, State.Fetched t)
      | FutPoll.err e => (PollResult.failed e, State.Fetching fut)
  | State.Refetching fut prev =>
      match oracle fut with
      | FutPoll.pending => (PollResult.pending, State.Refetching fut prev)
      | FutPoll.ok t => (PollResult.ready, State.Fetched t)
      | FutPoll.err e => (PollResult.failed e, State.Refetching fut prev)
  | State.Fetched t =>
      if t.is_expired now then
        match oracle freshFut with
        | FutPoll.pending => (PollResult.pending, State.Refetching freshFut t)
        | FutPoll.ok t2 => (PollResult.ready, State.Fetched t2)
        | FutPoll.err e => (PollResult.failed e, State.Refetching freshFut t)
      else
        (PollResult.ready, State.Fetched t)

/-- Model of `KeycloakAuth::poll_ready` (src/auth.rs lines 42-48): under the
read lock, if `can_skip_poll_ready` then `Ready(Ok(()))` with no state
change; otherwise take the write lock and run the inner `poll_ready`. -/
def KeycloakAuth.poll_ready (oracle : Nat → FutPoll) (freshFut now : Nat)
    (s : State) : PollResult × State :=
  if KeycloakAuthInner.can_skip_poll_ready now s then (PollResult.ready, s)
  else KeycloakAuthInner.poll_ready oracle freshFut now s

/-- The identifier of the in-flight fetch operation a state stores, if any. -/
def State.inflight : State → Option Nat
  | State.Fetching fut => some fut
  | State.Refetching fut _ => some fut
  | _ => none

/-- How many fetch operations a state holds in flight. -/
def State.opsInFlight (s : State) : Nat :=
  match s.inflight with
  | some _ => 1
  | none => 0

/-- A sequence of readiness probes against the one shared state: each step
supplies the fresh future identifier and the clock reading of that probe.
The `RwLock` serialises the probes, so clones of the handle interleave as
a sequence of atomic `KeycloakAuth.poll_ready` steps. -/
def runProbes (oracle : Nat → FutPoll) : List (Nat × Nat) → State → State
  | [], s => s
  | (freshFut, now) :: rest, s =>
      runProbes oracle rest (KeycloakAuth.poll_ready oracle freshFut now s).2

/-- An HTTP request: a header list plus an opaque body. -/
structure Request (T : Type) where
  headers : List (String × String)
  body : T
deriving Repr, DecidableEq

/-- The `AUTHORIZATION` header name used by src/auth.rs line 52. -/
def AUTHORIZATION : String := "authorization"

/-- Model of `HeaderMap::insert`: the new value replaces every value
previously associated with the name, leaving a single entry. -/
def HeaderMap.insert (name value : String) (headers : List (String × String)) :
    List (String × String) :=
  (name, value) :: headers.filter (fun p => p.1 != name)

/-- Look a header up by name. -/
def HeaderMap.get (name : String) (headers : List (String × String)) :
    Option String :=
  (headers.find? (fun p => p.1 == name)).map Prod.snd

/-- How many entries of the map carry the given name. -/
def HeaderMap.count (name : String) (headers : List (String × String)) : Nat :=
  (headers.filter (fun p => p.1 == name)).length

/-- Model of `KeycloakAuth::update_request` (src/auth.rs lines 50-53):
`req.headers_mut().insert(AUTHORIZATION, inner.read().header_value())`.
`header_value` panics (modelled `none`) when no credential is held. -/
def KeycloakAuth.update_request (s : State) (req : Request T) :
    Option (Request T) :=
  (KeycloakAuthInner.header_value s).map fun v =>
    { req with headers := HeaderMap.insert AUTHORIZATION v req.headers }

/-- The two-variant error of the middleware (src/service.rs lines 21-27). -/
inductive ServiceError (E : Type) where
  | Service (e : E)
  | Keycloak (e : Error)
deriving Repr, DecidableEq

/-- `Poll<Result<(), E>>` of a generic service. -/
inductive ServicePoll (E : Type) where
  | pending
  | ready
  | failed (e : E)
deriving Repr, DecidableEq

/-- Model of `KeycloakService::poll_ready` (src/service.rs lines 37-45):
`ready!(auth.poll_ready(cx))` — pending propagates before the inner
service is consulted — then on `Ok` the inner readiness mapped through
`Error::Service`, on `Err` the credential error wrapped as
`Error::Keycloak`. `inner` is what the inner service would answer. -/
def KeycloakService.poll_ready (oracle : Nat → FutPoll) (freshFut now : Nat)
    (s : State) (inner : ServicePoll E) : ServicePoll (ServiceError E) × State :=
  match KeycloakAuth.poll_ready oracle freshFut now s with
  | (PollResult.ready, s2) =>
      (match inner with
       | ServicePoll.pending => ServicePoll.pending
       | ServicePoll.ready => ServicePoll.ready
       | ServicePoll.failed e => ServicePoll.failed (ServiceError.Service e), s2)
  | (PollResult.pending, s2) => (ServicePoll.pending, s2)
  | (PollResult.failed e, s2) =>
      (ServicePoll.failed (ServiceError.Keycloak e), s2)

/-- Model of `KeycloakService::call` (src/service.rs lines 47-50): the
request is stamped by `auth.update_request` and the result is what is
forwarded to the inner service (`none` models the panic inside
`update_request` before anything is forwarded). -/
def KeycloakService.call (s : State) (req : Request T) : Option (Request T) :=
  KeycloakAuth.update_request s req

/-- Model of the client struct as `KeycloakAuth::new` builds it
(src/auth.rs lines 32-37): the token url is the raw formatted string; the
transport (`reqwest::Client::new()`) is outside the model. -/
structure KeycloakClient where
  token_url : String
  client_id : String
  client_secret : String
deriving Repr, DecidableEq

/-- The lifecycle cell: state plus client (src/auth.rs lines 56-59). -/
structure KeycloakAuthInner where
  state : State
  client : KeycloakClient
deriving Repr, DecidableEq

/-- Model of `KeycloakAuth::new` (src/auth.rs lines 24-40): builds the
client with `token_url = format!("{server_url}/realms/{realm}/protocol/openid-connect/token")`
and the inner cell in state `NotFetched`. It returns `Self`, not a
`Result`: no failure path exists in this constructor. -/
def KeycloakAuth.new (server_url realm client_id client_secret : String) :
    KeycloakAuthInner :=
  { state := State.NotFetched,
    client :=
      { token_url :=
          server_url ++ "/realms/" ++ realm ++ "/protocol/openid-connect/token",
        client_id := client_id,
        client_secret := client_secret } }

/-- A parsed URL of the url crate, opaque past its text. -/
structure Url where
  raw : String
deriving Repr, DecidableEq

/-- Modelled from the url crate consumed by src/client.rs: `Url::parse`
with no base succeeds only when the input starts with a scheme — an ASCII
alphabetic character, then alphanumerics or `+`, `-`, `.`, then `:`. A
string with no such prefix fails with `RelativeUrlWithoutBase`. Only this
scheme test of the parser is modelled; the claims need no more of it. -/
def schemeTail : List Char → Bool
  | [] => false
  | c :: rest =>
      if c == ':' then true
      else (c.isAlphanum || c == '+' || c == '-' || c == '.') && schemeTail rest

/-- Whether a string begins with a URL scheme (see `schemeTail`). -/
def Url.hasScheme (s : String) : Bool :=
  match s.data with
  | [] => false
  | c :: rest => c.isAlpha && schemeTail rest

/-- The client struct as `KeycloakClient::new` builds it (src/client.rs
lines 12-18): the token url is parsed. -/
structure ParsedKeycloakClient where
  token_url : Url
  client_id : String
  client_secret : String
deriving Repr, DecidableEq

/-- Model of `KeycloakClient::new` (src/client.rs lines 21-47). The
transport construction (builder, retry and tracing middleware) is an
external collaborator modelled as infallible configuration; the fallible
step of interest is `Url::parse(&token_url)?`, whose error is wrapped as
`Error::ParseUrl` by the `#[from]` conversion of src/error.rs. `parseUrl`
is the parse function of the url crate, abstract here, returning the parse
error message on failure. -/
def KeycloakClient.new (parseUrl : String → Except String Url)
    (token_url client_id client_secret : String) :
    Except Error ParsedKeycloakClient :=
  match parseUrl token_url with
  | Except.ok u =>
      Except.ok { token_url := u, client_id := client_id,
                  client_secret := client_secret }
  | Except.error e => Except.error (Error.ParseUrl e)

/-! ## Helper lemmas -/

/-- Every state holds at most one in-flight fetch operation. -/
theorem opsInFlight_le_one (s : State) : s.opsInFlight ≤ 1 := by
  cases s <;> simp [State.opsInFlight, State.inflight]

/-! ## Claim theorems -/

/-- C1: the claim says a fetch error makes `poll_ready` report the error and
reset the state to `NotFetched`. The code (src/auth.rs lines 104-106 and
114-116) reports the error but leaves the state as `Fetching` /
`Refetching`, still holding the already-completed future, which the next
probe re-polls. Evaluated here at the failing input: state `Fetching 0`
(and `Refetching 0`), fetch completing with `Err(FetchToken 500 "boom")`. -/
theorem C1_fetch_error_keeps_completed_future :
    KeycloakAuthInner.poll_ready (fun _ => FutPoll.err (Error.FetchToken 500 "boom")) 1 0
        (State.Fetching 0) =
      (PollResult.failed (Error.FetchToken 500 "boom"), State.Fetching 0) ∧
    KeycloakAuthInner.poll_ready (fun _ => FutPoll.err (Error.FetchToken 500 "boom")) 1 0
        (State.Refetching 0 ⟨"Bearer x", 0⟩) =
      (PollResult.failed (Error.FetchToken 500 "boom"), State.Refetching 0 ⟨"Bearer x", 0⟩) ∧
    State.Fetching 0 ≠ State.NotFetched :=
  ⟨rfl, rfl, by decide⟩

/-- C2: single-flight invariant: along every sequence of (serialised)
readiness probes the shared state holds at most one in-flight fetch, and a
probe that finds an operation already stored in `Fetching`/`Refetching`
never installs a different one — it either keeps the same operation or
finishes it, so no second fetch starts while one is in flight. -/
theorem C2_single_flight (oracle : Nat → FutPoll) :
    (∀ steps s, (runProbes oracle steps s).opsInFlight ≤ 1) ∧
    (∀ freshFut now s fut, s.inflight = some fut →
      (KeycloakAuth.poll_ready oracle freshFut now s).2.inflight = some fut ∨
      (KeycloakAuth.poll_ready oracle freshFut now s).2.inflight = none) := by
  constructor
  · intro steps s
    exact opsInFlight_le_one _
  · intro freshFut now s fut h
    have hskip : KeycloakAuthInner.can_skip_poll_ready now s = false := by
      cases s <;> simp_all [KeycloakAuthInner.can_skip_poll_ready, State.inflight]
    rw [KeycloakAuth.poll_ready, hskip]
    simp only [Bool.false_eq_true, if_false]
    cases s with
    | Fetching f =>
        obtain rfl : f = fut := by simpa [State.inflight] using h
        rcases h2 : oracle f with _ | t | e <;>
          simp [KeycloakAuthInner.poll_ready, h2, State.inflight]
    | Refetching f prev =>
        obtain rfl : f = fut := by simpa [State.inflight] using h
        rcases h2 : oracle f with _ | t | e <;>
          simp [KeycloakAuthInner.poll_ready, h2, State.inflight]
    | NotFetched => simp [State.inflight] at h
    | Fetched t => simp [State.inflight] at h

/-- C3: `is_expired now` is true exactly when the expiry cannot be compared
to `now` (already elapsed, `checked_duration_since` returns nothing) or the
remaining duration is under the 10-second buffer; with more than 10 seconds
remaining it is false. -/
theorem C3_is_expired_characterisation (tok : Token) (now : Nat) :
    (tok.is_expired now = true ↔
      Instant.checkedDurationSince tok.expiration now = none ∨
        tok.expiration - now < Token.EXPIRY_DELTA) ∧
    (now + Token.EXPIRY_DELTA < tok.expiration → tok.is_expired now = false) := by
  unfold Token.is_expired Instant.checkedDurationSince
  constructor
  · split <;> simp
  · intro h
    split
    · simp
      omega
    · omega

/-- C4: `header_value` returns the current token from `Fetched`, the
previous token from `Refetching` (so stamping during a refresh uses the
previous credential), and panics (modelled `none`) on `NotFetched` and
`Fetching`. -/
theorem C4_header_value_peek (t prev : Token) (fut : Nat) :
    KeycloakAuthInner.header_value (State.Fetched t) = some t.header_value ∧
    KeycloakAuthInner.header_value (State.Refetching fut prev) = some prev.header_value ∧
    KeycloakAuthInner.header_value State.NotFetched = none ∧
    KeycloakAuthInner.header_value (State.Fetching fut) = none :=
  ⟨rfl, rfl, rfl, rfl⟩

/-- C5: whenever a credential is held, `call` forwards the request with its
authorization header set to the credential header value — one single entry,
overwriting whatever was there — and a request is only ever forwarded
stamped with exactly that value. -/
theorem C5_call_stamps_request (T : Type) (req : Request T) (s : State) (v : String)
    (h : KeycloakAuthInner.header_value s = some v) :
    KeycloakService.call s req =
      some { req with headers := HeaderMap.insert AUTHORIZATION v req.headers } ∧
    HeaderMap.get AUTHORIZATION (HeaderMap.insert AUTHORIZATION v req.headers) = some v ∧
    HeaderMap.count AUTHORIZATION (HeaderMap.insert AUTHORIZATION v req.headers) = 1 ∧
    (∀ req2, KeycloakService.call s req = some req2 →
      HeaderMap.get AUTHORIZATION req2.headers = some v) := by
  have hcall : KeycloakService.call s req =
      some { req with headers := HeaderMap.insert AUTHORIZATION v req.headers } := by
    simp [KeycloakService.call, KeycloakAuth.update_request, h]
  have hget : HeaderMap.get AUTHORIZATION (HeaderMap.insert AUTHORIZATION v req.headers) =
      some v := by
    simp [HeaderMap.get, HeaderMap.insert, List.find?]
  refine ⟨hcall, hget, ?_, ?_⟩
  · simp [HeaderMap.count, HeaderMap.insert, List.filter_filter]
  · intro req2 h2
    rw [hcall] at h2
    injection h2 with h2
    subst h2
    exact hget

theorem C5_call_stamps_request_witness :
    KeycloakService.call (State.Fetched ⟨"Bearer abc123", 0⟩)
        ({ headers := [("authorization", "old"), ("x", "y")], body := 0 } : Request Nat) =
      some { headers :=
               HeaderMap.insert AUTHORIZATION "Bearer abc123"
                 [("authorization", "old"), ("x", "y")],
             body := 0 } ∧
    HeaderMap.get AUTHORIZATION
        (HeaderMap.insert AUTHORIZATION "Bearer abc123"
          [("authorization", "old"), ("x", "y")]) = some "Bearer abc123" ∧
    HeaderMap.count AUTHORIZATION
        (HeaderMap.insert AUTHORIZATION "Bearer abc123"
          [("authorization", "old"), ("x", "y")]) = 1 ∧
    (∀ req2,
      KeycloakService.call (State.Fetched ⟨"Bearer abc123", 0⟩)
          ({ headers := [("authorization", "old"), ("x", "y")], body := 0 } : Request Nat) =
        some req2 →
      HeaderMap.get AUTHORIZATION req2.headers = some "Bearer abc123") :=
  C5_call_stamps_request Nat
    { headers := [("authorization", "old"), ("x", "y")], body := 0 }
    (State.Fetched ⟨"Bearer abc123", 0⟩) "Bearer abc123" rfl

/-- C6: the middleware is ready exactly when the auth handle and the inner
service are both ready; a credential failure surfaces as `Keycloak`, an
inner failure as `Service` with the inner error unchanged, and while the
auth handle is not ready the inner service is not consulted (the answer
does not depend on it). -/
theorem C6_readiness_and_error_mapping (E : Type) (oracle : Nat → FutPoll)
    (freshFut now : Nat) (s : State) (inner innerAlt : ServicePoll E) :
    ((KeycloakService.poll_ready oracle freshFut now s inner).1 = ServicePoll.ready ↔
      (KeycloakAuth.poll_ready oracle freshFut now s).1 = PollResult.ready ∧
        inner = ServicePoll.ready) ∧
    (∀ e, (KeycloakAuth.poll_ready oracle freshFut now s).1 = PollResult.failed e →
      (KeycloakService.poll_ready oracle freshFut now s inner).1 =
        ServicePoll.failed (ServiceError.Keycloak e)) ∧
    (∀ e, (KeycloakAuth.poll_ready oracle freshFut now s).1 = PollResult.ready →
      inner = ServicePoll.failed e →
      (KeycloakService.poll_ready oracle freshFut now s inner).1 =
        ServicePoll.failed (ServiceError.Service e)) ∧
    ((KeycloakAuth.poll_ready oracle freshFut now s).1 ≠ PollResult.ready →
      (KeycloakService.poll_ready oracle freshFut now s inner).1 =
        (KeycloakService.poll_ready oracle freshFut now s innerAlt).1) := by
  rcases hA : KeycloakAuth.poll_ready oracle freshFut now s with ⟨r, s2⟩
  cases r <;> cases inner <;> cases innerAlt <;>
    simp [KeycloakService.poll_ready, hA]

/-- C7 counterexample: with server url "not a url" the derived token
endpoint has no URL scheme, so `Url::parse` would reject it, yet
`KeycloakAuth::new` still succeeds, returning the fully constructed handle
(its signature has no failure path at all). -/
theorem C7_counterexample_new_infallible :
    Url.hasScheme ((KeycloakAuth.new "not a url" "master" "cid" "secret").client.token_url) =
      false ∧
    KeycloakAuth.new "not a url" "master" "cid" "secret" =
      { state := State.NotFetched,
        client := { token_url := "not a url/realms/master/protocol/openid-connect/token",
                    client_id := "cid", client_secret := "secret" } } :=
  ⟨by decide, by decide⟩

/-- C7 amended: `KeycloakAuth::new` derives the token endpoint
`serverUrl ++ "/realms/" ++ realm ++ "/protocol/openid-connect/token"` but
cannot fail — it stores the raw string and starts in `NotFetched`; URL
parsing and its construction-time failure live in `KeycloakClient::new`,
which fails with `Error::ParseUrl` whenever the URL does not parse. -/
theorem C7_amended_url_derivation (server_url realm client_id client_secret : String)
    (parseUrl : String → Except String Url) (u cid cs e : String) :
    (KeycloakAuth.new server_url realm client_id client_secret).client.token_url =
      server_url ++ "/realms/" ++ realm ++ "/protocol/openid-connect/token" ∧
    (KeycloakAuth.new server_url realm client_id client_secret).state = State.NotFetched ∧
    (parseUrl u = Except.error e →
      KeycloakClient.new parseUrl u cid cs = Except.error (Error.ParseUrl e)) :=
  ⟨rfl, rfl, fun h => by simp [KeycloakClient.new, h]⟩

/-- C8: round-trip: `Token::new("Bearer", "abc123", 300)` at instant `now`
yields exactly the header "Bearer abc123" and expiry `now + 300s`; it is
not expired immediately, and it is expired at any instant with fewer than
10 seconds of the 300-second lifetime remaining. -/
theorem C8_roundtrip (now later : Nat) :
    Token.new "Bearer" "abc123" 300 now =
      some { header_value := "Bearer abc123",
             expiration := now + Duration.fromSecs 300 } ∧
    Token.is_expired
        { header_value := "Bearer abc123", expiration := now + Duration.fromSecs 300 }
        now = false ∧
    (now + Duration.fromSecs 300 - later < Duration.fromSecs 10 →
      Token.is_expired
          { header_value := "Bearer abc123", expiration := now + Duration.fromSecs 300 }
          later = true) := by
  have hvalid : isValidHeaderValue ("Bearer" ++ " " ++ "abc123") = true := by decide
  have hvalid2 : isValidHeaderValue "Bearer abc123" = true := by decide
  have happ : "Bearer" ++ " " ++ "abc123" = "Bearer abc123" := by decide
  refine ⟨?_, ?_, ?_⟩
  · simp [Token.new, hvalid, hvalid2, happ]
  · unfold Token.is_expired Instant.checkedDurationSince
    simp [Duration.fromSecs, nanosPerSec, Token.EXPIRY_DELTA]
  · intro h
    unfold Token.is_expired Instant.checkedDurationSince Token.EXPIRY_DELTA
    unfold Duration.fromSecs nanosPerSec at h ⊢
    split
    · simp
      omega
    · simp

/-- C9: `can_skip_poll_ready` is true exactly for a `Fetched` state with a
non-expired token, and in that case the handle readiness probe answers
Ready with the state untouched. -/
theorem C9_fast_path (oracle : Nat → FutPoll) (freshFut now : Nat) (s : State) :
    (KeycloakAuthInner.can_skip_poll_ready now s = true ↔
      ∃ t, s = State.Fetched t ∧ t.is_expired now = false) ∧
    (KeycloakAuthInner.can_skip_poll_ready now s = true →
      KeycloakAuth.poll_ready oracle freshFut now s = (PollResult.ready, s)) := by
  constructor
  · cases s <;> simp [KeycloakAuthInner.can_skip_poll_ready]
  · intro h
    simp [KeycloakAuth.poll_ready, h]

/-- C10: `Token::new` is partial: it panics (modelled `none`) exactly when
the formatted "tokenType accessToken" string is not a valid header value;
in particular an access token holding a line feed makes construction
panic. -/
theorem C10_token_new_panics (token_type access_token : String) (expires_in now : Nat) :
    (Token.new token_type access_token expires_in now = none ↔
      isValidHeaderValue (token_type ++ " " ++ access_token) = false) ∧
    Token.new "Bearer" "abc\n123" 300 0 = none := by
  constructor
  · unfold Token.new
    split <;> simp_all
  · decide

end TowerKeycloak
